import Mathlib

/-!
Verification of the Brazilian-market payment kernel extracted from the
pleme-codegen generator templates: document (CPF/CNPJ/CEP) validation and
formatting, the PIX BR-Code payload builder with its CRC16-CCITT trailer,
tax and shipping-zone computation, and the payment lifecycle state
machines.  Each definition is a shallow embedding of the Rust
function of the same name; machine integers are modelled as `Nat` with
explicit `% 2 ^ w` where wrap-around matters, `rust_decimal::Decimal`
values as exact rationals, and fallible methods as result/state pairs.
-/

namespace Pleme

/-! ## Document validation (src/brazilian.rs)

`extract_digits` models `cpf.chars().filter(|c| c.is_ascii_digit())`:
the retained characters of the input, in order, that are ASCII digits. -/

def extract_digits (s : String) : List Char :=
  s.data.filter Char.isDigit

/-- Numeric value of an ASCII digit character, modelling `c.to_digit(10)`. -/
def char_digit (c : Char) : Nat :=
  c.toNat - 48

/-- The modulo-11 check-digit reduction appearing verbatim in
`validate_cpf` and `validate_cnpj`:
`match sum % 11 { 0 | 1 => 0, n => 11 - n }`. -/
def modCheck (sum : Nat) : Nat :=
  match sum % 11 with
  | 0 => 0
  | 1 => 0
  | n => 11 - n

/-- Shallow embedding of `validate_cpf` (src/brazilian.rs:242-280).
Digits are extracted, the length must be 11, all-identical digit strings
are rejected, then the two weighted modulo-11 check digits are compared
against positions 9 and 10. -/
def validate_cpf (cpf : String) : Bool :=
  let digits := extract_digits cpf
  if digits.length ≠ 11 then false
  else if digits.all (fun c => c == digits.headI) then false
  else
    let ds := digits.map char_digit
    let sum1 := ((ds.take 9).enum.map (fun p => p.2 * (10 - p.1))).sum
    let check1 := modCheck sum1
    if check1 ≠ ds.getD 9 0 then false
    else
      let sum2 := ((ds.take 10).enum.map (fun p => p.2 * (11 - p.1))).sum
      let check2 := modCheck sum2
      check2 == ds.getD 10 0

/-- The reduction `f(x) = 0 if x ∈ {0,1} else 11 - x` exactly as the spec
sentence states it; used to phrase the claim-side CPF predicate. -/
def f_mod11 (x : Nat) : Nat :=
  if x = 0 ∨ x = 1 then 0 else 11 - x

/-- First CPF check digit as the spec phrases it:
`d1 = f(Σ_{i=0..8} digit[i] * (10 - i) mod 11)`. -/
def cpf_d1 (ds : List Nat) : Nat :=
  f_mod11 ((((List.range 9).map (fun i => ds.getD i 0 * (10 - i))).sum) % 11)

/-- Second CPF check digit as the spec phrases it:
`d2 = f(Σ_{i=0..9} digit[i] * (11 - i) mod 11)`. -/
def cpf_d2 (ds : List Nat) : Nat :=
  f_mod11 ((((List.range 10).map (fun i => ds.getD i 0 * (11 - i))).sum) % 11)

/-- Claim-side CPF validity predicate, phrased from the spec sentences:
11 extracted digits, not all identical, and positions 9 and 10 agree with
the two computed check digits. -/
def cpf_spec_valid (s : String) : Bool :=
  let digits := extract_digits s
  let ds := digits.map char_digit
  (digits.length == 11)
    && !(digits.all (fun c => c == digits.headI))
    && (ds.getD 9 0 == cpf_d1 ds)
    && (ds.getD 10 0 == cpf_d2 ds)

/-- Shallow embedding of `format_cpf` (src/brazilian.rs:283-292):
`XXX.XXX.XXX-XX` when exactly 11 digits are extracted, otherwise the
input string unchanged. -/
def format_cpf (cpf : String) : String :=
  let digits := extract_digits cpf
  if digits.length = 11 then
    String.mk (digits.take 3) ++ "." ++ String.mk ((digits.drop 3).take 3)
      ++ "." ++ String.mk ((digits.drop 6).take 3)
      ++ "-" ++ String.mk ((digits.drop 9).take 2)
  else cpf

/-- Shallow embedding of `format_cnpj` (src/brazilian.rs:337-347):
`XX.XXX.XXX/XXXX-XX` when exactly 14 digits are extracted, otherwise the
input string unchanged. -/
def format_cnpj (cnpj : String) : String :=
  let digits := extract_digits cnpj
  if digits.length = 14 then
    String.mk (digits.take 2) ++ "." ++ String.mk ((digits.drop 2).take 3)
      ++ "." ++ String.mk ((digits.drop 5).take 3)
      ++ "/" ++ String.mk ((digits.drop 8).take 4)
      ++ "-" ++ String.mk ((digits.drop 12).take 2)
  else cnpj

/-- Shallow embedding of `format_cep` (src/brazilian.rs:356-362):
`XXXXX-XXX` when exactly 8 digits are extracted, otherwise the input
string unchanged. -/
def format_cep (cep : String) : String :=
  let digits := extract_digits cep
  if digits.length = 8 then
    String.mk (digits.take 5) ++ "-" ++ String.mk ((digits.drop 5).take 3)
  else cep

/-! ## CRC16-CCITT (src/payment_patterns.rs:231-247)

Bytes are `Nat` values below 256; the 16-bit register is a `Nat` kept
below `2 ^ 16` by reducing modulo 65536 exactly where the `u16` shift
discards its top bit. -/

/-- One shift step of the CRC loop: `if crc & 0x8000 != 0 { crc =
(crc << 1) ^ 0x1021 } else { crc <<= 1 }`, with the `u16` left shift
modelled as shift-then-`% 2 ^ 16`. -/
def crcShiftStep (crc : Nat) : Nat :=
  if crc &&& 0x8000 ≠ 0 then ((crc <<< 1) % 65536) ^^^ 0x1021
  else (crc <<< 1) % 65536

/-- Per-byte CRC step: `crc ^= (byte as u16) << 8` followed by the eight
shift steps of the inner `for _ in 0..8` loop. -/
def crcByteStep (crc byte : Nat) : Nat :=
  (List.range 8).foldl (fun c _ => crcShiftStep c) (crc ^^^ (byte <<< 8))

/-- Shallow embedding of `calculate_crc16` (src/payment_patterns.rs:231-247):
fold the per-byte step over the data starting from register `0xFFFF`. -/
def calculate_crc16 (data : List Nat) : Nat :=
  data.foldl crcByteStep 0xFFFF

/-- One shift step of CRC16-CCITT as the spec describes it: if the top
bit of the 16-bit register is set (arithmetically, bit 15 of `r` is 1),
shift left and XOR with the polynomial `0x1021 = 4129`, else shift left
only; the 16-bit truncation is written `% 65536`. -/
def crcSpecShift (r : Nat) : Nat :=
  if r / 32768 % 2 = 1 then ((r * 2) % 65536) ^^^ 4129
  else (r * 2) % 65536

/-- Per-byte step as the spec describes it: XOR the byte into the high
byte of the register, then perform eight shift steps. -/
def crcSpecByte (r byte : Nat) : Nat :=
  crcSpecShift^[8] (r ^^^ byte * 256)

/-- CRC16-CCITT as described by the spec: initial register `0xFFFF`,
bytes processed in order by `crcSpecByte`. -/
def crc16_ccitt_spec (data : List Nat) : Nat :=
  data.foldl crcSpecByte 0xFFFF

/-! ## PIX BR-Code payload (src/payment_patterns.rs:179-228)

Strings are modelled as their UTF-8 byte lists, so `.len()` is byte
length and slicing is `List.take`; ASCII literals are injected with
`strBytes`. -/

/-- Byte list of an ASCII string literal. -/
def strBytes (s : String) : List Nat :=
  s.data.map Char.toNat

/-- Decimal digit bytes of a natural number, the digits `format!` emits. -/
def natToDecBytes (n : Nat) : List Nat :=
  (Nat.toDigits 10 n).map Char.toNat

/-- The `{:02}` rendering of a length: decimal digits, zero-padded on the
left to at least two digits. -/
def pad2 (n : Nat) : List Nat :=
  if n < 10 then strBytes "0" ++ natToDecBytes n else natToDecBytes n

/-- Uppercase hexadecimal digit byte for a nibble value. -/
def hexDigitByte (d : Nat) : Nat :=
  if d < 10 then 48 + d else 55 + d

/-- The `{:04X}` rendering of a 16-bit CRC value: four uppercase
hexadecimal digit bytes, high nibble first. -/
def hex4 (n : Nat) : List Nat :=
  [hexDigitByte (n / 4096 % 16), hexDigitByte (n / 256 % 16),
   hexDigitByte (n / 16 % 16), hexDigitByte (n % 16)]

/-- The `format!("{:.2}", self.amount)` rendering of a non-negative
Decimal amount held in cents: integer part, a dot, and the two-digit
zero-padded cent part. -/
def format_amount_2dp (cents : Nat) : List Nat :=
  natToDecBytes (cents / 100) ++ strBytes "." ++ pad2 (cents % 100)

/-- The PIX payload up to and including the literal `6304` CRC prefix,
following `generate_qr_payload` line by line: format indicator,
initiation method, merchant account info (nested GUI and key), category
code, currency, amount, country, merchant name truncated to 25 bytes,
and the additional-data template carrying the transaction id. -/
def qr_payload_base (pix_key merchant_name : List Nat) (amount_cents : Nat)
    (txid : List Nat) : List Nat :=
  let merchant_info := strBytes "0014BR.GOV.BCB.PIX01" ++ pad2 pix_key.length ++ pix_key
  let amount_str := format_amount_2dp amount_cents
  let name_len := min merchant_name.length 25
  let additional := strBytes "05" ++ pad2 txid.length ++ txid
  strBytes "000201"
    ++ strBytes "010212"
    ++ strBytes "26" ++ pad2 merchant_info.length ++ merchant_info
    ++ strBytes "52040000"
    ++ strBytes "5303986"
    ++ strBytes "54" ++ pad2 amount_str.length ++ amount_str
    ++ strBytes "5802BR"
    ++ strBytes "59" ++ pad2 name_len ++ merchant_name.take name_len
    ++ strBytes "62" ++ pad2 additional.length ++ additional
    ++ strBytes "6304"

/-- Shallow embedding of `generate_qr_payload`
(src/payment_patterns.rs:179-228).  `e2e_id` is the optional
`end_to_end_id` field; `fresh_txid` stands for the random UUID-derived
value drawn when the field is absent.  The CRC16 of the payload built so
far (including `6304`) is appended as four uppercase hex digits. -/
def generate_qr_payload (pix_key merchant_name : List Nat) (amount_cents : Nat)
    (e2e_id : Option (List Nat)) (fresh_txid : List Nat) : List Nat :=
  let txid := e2e_id.getD fresh_txid
  let base := qr_payload_base pix_key merchant_name amount_cents txid
  base ++ hex4 (calculate_crc16 base)

/-! ## Decimal model

`rust_decimal::Decimal` values are modelled as exact rationals;
`Decimal::new(m, s)` is `m * 10 ^ (-s)`.  Every division the embedded
code performs is by a power of ten and is exact in `rust_decimal` at the
scales involved, so the rational model agrees with the source values. -/

/-- Model of `rust_decimal::Decimal::new(m, scale)`. -/
def Decimal_new (m : Int) (scale : Nat) : ℚ :=
  (m : ℚ) / (10 : ℚ) ^ scale

/-- Model of Rust `str::to_uppercase` for the ASCII state and city codes
used by the tax and shipping tables: uppercase every character. -/
def to_upper (s : String) : String :=
  ⟨s.data.map Char.toUpper⟩

/-! ## Brazilian taxes (src/brazilian_patterns.rs:19-109) -/

/-- Shallow embedding of `calculate_icms` (src/brazilian_patterns.rs:19-65):
state-keyed rate table (each entry `Decimal::new(r, 2)`), default 17,
applied as `subtotal * tax_rate / Decimal::new(100, 0)`. -/
def calculate_icms (subtotal : ℚ) (state : String) : ℚ :=
  let tax_rate : ℚ :=
    match to_upper state with
    | "SP" => Decimal_new 18 2
    | "RJ" => Decimal_new 20 2
    | "MG" => Decimal_new 18 2
    | "RS" => Decimal_new 17 2
    | "PR" => Decimal_new 19 2
    | "SC" => Decimal_new 17 2
    | "BA" => Decimal_new 19 2
    | "PE" => Decimal_new 18 2
    | "CE" => Decimal_new 19 2
    | "DF" => Decimal_new 18 2
    | "GO" => Decimal_new 17 2
    | "MT" => Decimal_new 17 2
    | "MS" => Decimal_new 17 2
    | "ES" => Decimal_new 17 2
    | "PA" => Decimal_new 19 2
    | "AM" => Decimal_new 20 2
    | "MA" => Decimal_new 19 2
    | "PI" => Decimal_new 19 2
    | "RN" => Decimal_new 18 2
    | "PB" => Decimal_new 18 2
    | "AL" => Decimal_new 19 2
    | "SE" => Decimal_new 19 2
    | "TO" => Decimal_new 18 2
    | "RO" => Decimal_new 17 2
    | "RR" => Decimal_new 17 2
    | "AC" => Decimal_new 17 2
    | "AP" => Decimal_new 18 2
    | _ => Decimal_new 17 2
  subtotal * tax_rate / Decimal_new 100 0

/-- Shallow embedding of `calculate_pis`: rate `Decimal::new(165, 4)`,
applied as `subtotal * pis_rate / Decimal::new(100, 0)`. -/
def calculate_pis (subtotal : ℚ) : ℚ :=
  subtotal * Decimal_new 165 4 / Decimal_new 100 0

/-- Shallow embedding of `calculate_cofins`: rate `Decimal::new(760, 4)`,
applied as `subtotal * cofins_rate / Decimal::new(100, 0)`. -/
def calculate_cofins (subtotal : ℚ) : ℚ :=
  subtotal * Decimal_new 760 4 / Decimal_new 100 0

/-- Shallow embedding of `calculate_iss` (src/brazilian_patterns.rs:80-92):
city-keyed rate table with default `Decimal::new(3, 2)`. -/
def calculate_iss (subtotal : ℚ) (city : String) : ℚ :=
  let iss_rate : ℚ :=
    match to_upper city with
    | "SAO PAULO" => Decimal_new 5 2
    | "SP" => Decimal_new 5 2
    | "RIO DE JANEIRO" => Decimal_new 5 2
    | "RJ" => Decimal_new 5 2
    | "BELO HORIZONTE" => Decimal_new 3 2
    | "BH" => Decimal_new 3 2
    | "CURITIBA" => Decimal_new 2 2
    | _ => Decimal_new 3 2
  subtotal * iss_rate / Decimal_new 100 0

/-- Shallow embedding of `calculate_total_tax`
(src/brazilian_patterns.rs:95-109): services get ISS + PIS + COFINS,
goods get ICMS + PIS + COFINS. -/
def calculate_total_tax (subtotal : ℚ) (state : String) (service : Bool) : ℚ :=
  if service then
    calculate_iss subtotal state + calculate_pis subtotal + calculate_cofins subtotal
  else
    calculate_icms subtotal state + calculate_pis subtotal + calculate_cofins subtotal

/-! ## Shipping zones (src/brazilian_patterns.rs:163-206) -/

/-- The five fixed region lists exactly as the source spells them. -/
def southeast_states : List String := ["SP", "RJ", "MG", "ES"]

def south_states : List String := ["PR", "SC", "RS"]

def northeast_states : List String := ["BA", "SE", "AL", "PE", "PB", "RN", "CE", "PI", "MA"]

def north_states : List String := ["AC", "AP", "AM", "PA", "RO", "RR", "TO"]

def center_states : List String := ["GO", "MT", "MS", "DF"]

/-- All 27 Brazilian state codes (the union of the five regions). -/
def brazil_states : List String :=
  southeast_states ++ south_states ++ northeast_states ++ north_states ++ center_states

/-- Shallow embedding of `calculate_zone_multiplier`
(src/brazilian_patterns.rs:163-206), rule by rule in source order:
same state 1.00; same region 1.20; the enumerated adjacent pairs 1.50;
the enumerated distant pairs 1.80; default 1.60. -/
def calculate_zone_multiplier (origin dest : String) : ℚ :=
  if to_upper origin = to_upper dest then Decimal_new 100 2
  else
    let ou := to_upper origin
    let du := to_upper dest
    if (southeast_states.contains ou && southeast_states.contains du)
        || (south_states.contains ou && south_states.contains du)
        || (northeast_states.contains ou && northeast_states.contains du)
        || (north_states.contains ou && north_states.contains du)
        || (center_states.contains ou && center_states.contains du) then
      Decimal_new 120 2
    else if (southeast_states.contains ou
          && (south_states.contains du || center_states.contains du))
        || (south_states.contains ou && southeast_states.contains du) then
      Decimal_new 150 2
    else if (southeast_states.contains ou && north_states.contains du)
        || (north_states.contains ou && southeast_states.contains du)
        || (south_states.contains ou && north_states.contains du)
        || (north_states.contains ou && south_states.contains du) then
      Decimal_new 180 2
    else
      Decimal_new 160 2

/-- The five shipping regions. -/
inductive Region where
  | southeast
  | south
  | northeast
  | north
  | center
deriving DecidableEq

/-- Region of an (already uppercased) state code, `none` for codes
outside the partition. -/
def region_of (s : String) : Option Region :=
  if southeast_states.contains s then some .southeast
  else if south_states.contains s then some .south
  else if northeast_states.contains s then some .northeast
  else if north_states.contains s then some .north
  else if center_states.contains s then some .center
  else none

/-- Zone multiplier exactly as claim C3 words it: 1.00 same state, 1.20
same region, 1.50 exactly for the southeast↔south/center pairs, 1.80
exactly for the southeast↔north pairs, and 1.60 for every other pair. -/
def claim_zone_multiplier (origin dest : String) : ℚ :=
  if to_upper origin = to_upper dest then Decimal_new 100 2
  else
    match region_of (to_upper origin), region_of (to_upper dest) with
    | some r1, some r2 =>
      if r1 = r2 then Decimal_new 120 2
      else if (r1 = .southeast ∧ (r2 = .south ∨ r2 = .center))
          ∨ ((r1 = .south ∨ r1 = .center) ∧ r2 = .southeast) then Decimal_new 150 2
      else if (r1 = .southeast ∧ r2 = .north) ∨ (r1 = .north ∧ r2 = .southeast) then
        Decimal_new 180 2
      else Decimal_new 160 2
    | _, _ => Decimal_new 160 2

/-- Zone multiplier as amended: the 1.50 tier holds exactly for the
ordered pairs southeast→south, southeast→center and south→southeast,
and the 1.80 tier holds for southeast↔north and south↔north in both
orders; everything else outside same-state/same-region is 1.60. -/
def amended_zone_multiplier (origin dest : String) : ℚ :=
  if to_upper origin = to_upper dest then Decimal_new 100 2
  else
    match region_of (to_upper origin), region_of (to_upper dest) with
    | some r1, some r2 =>
      if r1 = r2 then Decimal_new 120 2
      else if (r1 = .southeast ∧ (r2 = .south ∨ r2 = .center))
          ∨ (r1 = .south ∧ r2 = .southeast) then Decimal_new 150 2
      else if ((r1 = .southeast ∨ r1 = .south) ∧ r2 = .north)
          ∨ (r1 = .north ∧ (r2 = .southeast ∨ r2 = .south)) then Decimal_new 180 2
      else Decimal_new 160 2
    | _, _ => Decimal_new 160 2

/-- The `Decimal::new(m, 2)` mantissa chosen by each branch of
`calculate_zone_multiplier`, with the identical condition structure;
the multiplier is `Decimal_new` of this value at scale 2. -/
def zone_multiplier_mantissa (origin dest : String) : Int :=
  if to_upper origin = to_upper dest then 100
  else
    let ou := to_upper origin
    let du := to_upper dest
    if (southeast_states.contains ou && southeast_states.contains du)
        || (south_states.contains ou && south_states.contains du)
        || (northeast_states.contains ou && northeast_states.contains du)
        || (north_states.contains ou && north_states.contains du)
        || (center_states.contains ou && center_states.contains du) then 120
    else if (southeast_states.contains ou
          && (south_states.contains du || center_states.contains du))
        || (south_states.contains ou && southeast_states.contains du) then 150
    else if (southeast_states.contains ou && north_states.contains du)
        || (north_states.contains ou && southeast_states.contains du)
        || (south_states.contains ou && north_states.contains du)
        || (north_states.contains ou && south_states.contains du) then 180
    else 160

/-- Mantissa form of `amended_zone_multiplier`. -/
def amended_zone_mantissa (origin dest : String) : Int :=
  if to_upper origin = to_upper dest then 100
  else
    match region_of (to_upper origin), region_of (to_upper dest) with
    | some r1, some r2 =>
      if r1 = r2 then 120
      else if (r1 = .southeast ∧ (r2 = .south ∨ r2 = .center))
          ∨ (r1 = .south ∧ r2 = .southeast) then 150
      else if ((r1 = .southeast ∨ r1 = .south) ∧ r2 = .north)
          ∨ (r1 = .north ∧ (r2 = .southeast ∨ r2 = .south)) then 180
      else 160
    | _, _ => 160

/-! ## Status state machine (src/status_patterns.rs:20-72)

The generated `can_transition_to` first allows self-transitions via
discriminant equality, then matches the `Debug`-format names of the two
variants against a fixed table.  The variant names are in bijection with
the constructors, so the string match is modelled as a constructor
match with the same arms in the same order. -/

/-- The status variants named by the generated transition table and
`to_str` (src/status_patterns.rs:106-136). -/
inductive Status where
  | Pending
  | AwaitingPayment
  | PaymentProcessing
  | Authorized
  | Captured
  | Paid
  | Processing
  | PartiallyFulfilled
  | Fulfilled
  | Shipped
  | PartiallyShipped
  | OutForDelivery
  | Delivered
  | Cancelled
  | Refunded
  | PartiallyRefunded
  | Disputed
  | Failed
  | Expired
  | Returned
  | Active
  | Inactive
  | Suspended
  | Deleted
deriving DecidableEq, Fintype

/-- Shallow embedding of `can_transition_to` (src/status_patterns.rs:20-72):
self-transitions always allowed, then the enumerated table, else false. -/
def can_transition_to (s t : Status) : Bool :=
  if s = t then true
  else
    match s, t with
    | .Pending, .AwaitingPayment | .Pending, .PaymentProcessing
    | .Pending, .Paid | .Pending, .Failed | .Pending, .Cancelled => true
    | .AwaitingPayment, .PaymentProcessing | .AwaitingPayment, .Paid
    | .AwaitingPayment, .Failed | .AwaitingPayment, .Cancelled
    | .AwaitingPayment, .Expired => true
    | .PaymentProcessing, .Paid | .PaymentProcessing, .Failed
    | .PaymentProcessing, .Cancelled | .PaymentProcessing, .Authorized => true
    | .Authorized, .Captured | .Authorized, .Cancelled | .Authorized, .Expired => true
    | .Captured, .Processing | .Captured, .Refunded => true
    | .Paid, .Processing | .Paid, .Cancelled | .Paid, .Refunded => true
    | .Processing, .Fulfilled | .Processing, .PartiallyFulfilled
    | .Processing, .Cancelled | .Processing, .Failed => true
    | .PartiallyFulfilled, .Fulfilled | .PartiallyFulfilled, .Cancelled => true
    | .Fulfilled, .Shipped | .Fulfilled, .PartiallyShipped => true
    | .PartiallyShipped, .Shipped => true
    | .Shipped, .OutForDelivery | .Shipped, .Delivered | .Shipped, .Returned => true
    | .OutForDelivery, .Delivered | .OutForDelivery, .Returned => true
    | .Delivered, .Refunded | .Delivered, .PartiallyRefunded
    | .Delivered, .Disputed | .Delivered, .Returned => true
    | .PartiallyRefunded, .Refunded | .PartiallyRefunded, .Disputed => true
    | .Returned, .Refunded => true
    | .Active, .Inactive | .Active, .Suspended | .Active, .Deleted => true
    | .Inactive, .Active | .Inactive, .Deleted => true
    | .Suspended, .Active | .Suspended, .Deleted => true
    | _, _ => false

/-- The allowed-transition table of claim C5 as an explicit edge list,
one pair per arm of the source match. -/
def allowed_transitions : List (Status × Status) :=
  [(.Pending, .AwaitingPayment), (.Pending, .PaymentProcessing),
   (.Pending, .Paid), (.Pending, .Failed), (.Pending, .Cancelled),
   (.AwaitingPayment, .PaymentProcessing), (.AwaitingPayment, .Paid),
   (.AwaitingPayment, .Failed), (.AwaitingPayment, .Cancelled),
   (.AwaitingPayment, .Expired),
   (.PaymentProcessing, .Paid), (.PaymentProcessing, .Failed),
   (.PaymentProcessing, .Cancelled), (.PaymentProcessing, .Authorized),
   (.Authorized, .Captured), (.Authorized, .Cancelled), (.Authorized, .Expired),
   (.Captured, .Processing), (.Captured, .Refunded),
   (.Paid, .Processing), (.Paid, .Cancelled), (.Paid, .Refunded),
   (.Processing, .Fulfilled), (.Processing, .PartiallyFulfilled),
   (.Processing, .Cancelled), (.Processing, .Failed),
   (.PartiallyFulfilled, .Fulfilled), (.PartiallyFulfilled, .Cancelled),
   (.Fulfilled, .Shipped), (.Fulfilled, .PartiallyShipped),
   (.PartiallyShipped, .Shipped),
   (.Shipped, .OutForDelivery), (.Shipped, .Delivered), (.Shipped, .Returned),
   (.OutForDelivery, .Delivered), (.OutForDelivery, .Returned),
   (.Delivered, .Refunded), (.Delivered, .PartiallyRefunded),
   (.Delivered, .Disputed), (.Delivered, .Returned),
   (.PartiallyRefunded, .Refunded), (.PartiallyRefunded, .Disputed),
   (.Returned, .Refunded),
   (.Active, .Inactive), (.Active, .Suspended), (.Active, .Deleted),
   (.Inactive, .Active), (.Inactive, .Deleted),
   (.Suspended, .Active), (.Suspended, .Deleted)]

/-! ## Payment entity lifecycle (src/payment_patterns.rs:19-103)

The generated methods mutate `&mut self` and return
`Result<(), PaymentError>`; they are modelled as functions from the
entity and the current time (`chrono::Utc::now()` as an oracle argument)
to the pair of the result and the post-call entity. -/

/-- The payment status enum the generated methods are written against
(declared in src/tests/payment_macros_test.rs:13-21). -/
inductive PaymentStatus where
  | Pending
  | Processing
  | Completed
  | Failed
  | Refunded
  | Cancelled
deriving DecidableEq

/-- Payment error values; `InvalidStateTransition` carries the `from`
and `to` statuses in that order. -/
inductive PaymentError where
  | InvalidAmount : PaymentError
  | InvalidStateTransition : PaymentStatus → PaymentStatus → PaymentError
  | AmountTooLow : ℚ → ℚ → PaymentError
  | AmountTooHigh : ℚ → ℚ → PaymentError
deriving DecidableEq

/-- The fields of a payment entity the generated lifecycle methods read
or write; timestamps are integer instants. -/
structure PaymentEntity where
  id : Nat
  amount : ℚ
  status : PaymentStatus
  created_at : Int
  updated_at : Int
  completed_at : Option Int
  failed_at : Option Int
  failure_reason : Option String
deriving DecidableEq

/-- Shallow embedding of `mark_processing` (src/payment_patterns.rs:19-31):
only from `Pending`; on success set `Processing` and touch `updated_at`,
otherwise `InvalidStateTransition` and no change. -/
def mark_processing (e : PaymentEntity) (now : Int) :
    Except PaymentError Unit × PaymentEntity :=
  match e.status with
  | .Pending => (.ok (), { e with status := .Processing, updated_at := now })
  | _ => (.error (.InvalidStateTransition e.status .Processing), e)

/-- Shallow embedding of `mark_completed` (src/payment_patterns.rs:34-54):
allowed from `Processing` or `Pending`; on success set `Completed`,
stamp `completed_at` and touch `updated_at`. -/
def mark_completed (e : PaymentEntity) (now : Int) :
    Except PaymentError Unit × PaymentEntity :=
  if e.status ≠ .Processing ∧ e.status ≠ .Pending then
    (.error (.InvalidStateTransition e.status .Completed), e)
  else
    (.ok (), { e with status := .Completed, completed_at := some now, updated_at := now })

/-- Shallow embedding of `mark_failed` (src/payment_patterns.rs:57-78):
rejected from `Completed` or `Refunded`; on success set `Failed`, stamp
`failed_at`, record the reason and touch `updated_at`. -/
def mark_failed (e : PaymentEntity) (reason : String) (now : Int) :
    Except PaymentError Unit × PaymentEntity :=
  if e.status = .Completed ∨ e.status = .Refunded then
    (.error (.InvalidStateTransition e.status .Failed), e)
  else
    (.ok (), { e with status := .Failed, failed_at := some now,
                      failure_reason := some reason, updated_at := now })

/-- Shallow embedding of `can_refund` (src/payment_patterns.rs:81-83). -/
def can_refund (e : PaymentEntity) : Bool :=
  e.status == .Completed

/-- Shallow embedding of `mark_refunded` (src/payment_patterns.rs:86-103):
guarded by `can_refund`; on success set `Refunded` and touch
`updated_at`. -/
def mark_refunded (e : PaymentEntity) (now : Int) :
    Except PaymentError Unit × PaymentEntity :=
  if ¬ can_refund e then
    (.error (.InvalidStateTransition e.status .Refunded), e)
  else
    (.ok (), { e with status := .Refunded, updated_at := now })

/-! ## Helper lemmas -/

/-- The enumerate-based weighted sum of the source equals the
index-based weighted sum of the spec sentence. -/
theorem enum_weight_sum (ds : List Nat) (n w : Nat) (h : n ≤ ds.length) :
    ((ds.take n).enum.map (fun p => p.2 * (w - p.1))).sum
      = ((List.range n).map (fun i => ds.getD i 0 * (w - i))).sum := by
  congr 1
  apply List.ext_getElem
  · simp [Nat.min_eq_left h]
  · intro i h1 h2
    simp only [List.getElem_map, List.getElem_enum, List.getElem_range]
    have hi : i < n := by simpa using h2
    rw [List.getElem_take]
    rw [List.getD_eq_getElem ds 0 (by omega)]

/-- The source's `match sum % 11` reduction is the spec's `f`. -/
theorem modCheck_eq (s : Nat) : modCheck s = f_mod11 (s % 11) := by
  unfold modCheck f_mod11
  rcases h : s % 11 with _ | m
  · simp
  · rcases m with _ | n
    · simp
    · have : ¬(n + 2 = 0 ∨ n + 2 = 1) := by omega
      simp [this]

/-- The sequential check-digit comparison of the source equals the
conjunction of the two comparisons as the spec phrases them. -/
theorem check_bool (A a B b : Nat) :
    (if A = a then (B == b) else false) = ((a == A) && (b == B)) := by
  by_cases h : A = a
  · subst h
    simp [Bool.beq_comm]
  · rw [if_neg h]
    have : (a == A) = false := by
      simp [beq_iff_eq]
      exact fun hc => absurd hc.symm h
    simp [this]

/-! ## Claim theorems -/

/-- C1 (counterexample).  The claim's golden example is wrong about the
code: `123.456.789-09` satisfies the very check-digit formula the claim
itself states (d1 = 0, d2 = 9), so `validate_cpf` returns `true` on it,
not `false`. -/
theorem cpf_claim_counterexample : validate_cpf "123.456.789-09" = true := by decide

/-- C1 (amended).  `validate_cpf` extracts the ASCII digits and accepts
exactly the inputs with 11 extracted digits, not all identical, whose
digits 9 and 10 equal the weighted modulo-11 check digits d1 and d2 of
the claim's formula; in particular both `111.444.777-35` and
`123.456.789-09` are accepted. -/
theorem validate_cpf_spec_correct :
    (∀ s : String, validate_cpf s = cpf_spec_valid s)
    ∧ validate_cpf "111.444.777-35" = true
    ∧ validate_cpf "123.456.789-09" = true := by
  refine ⟨fun s => ?_, by decide, by decide⟩
  unfold validate_cpf cpf_spec_valid
  by_cases hl : (extract_digits s).length = 11
  · by_cases hall : (extract_digits s).all (fun c => c == (extract_digits s).headI)
    · simp [hl, hall]
    · simp only [hl, hall, if_true, if_false, ite_not, Bool.not_false, Bool.true_and,
        beq_self_eq_true, Bool.false_eq_true]
      have hlen : ((extract_digits s).map char_digit).length = 11 := by simp [hl]
      set ds := (extract_digits s).map char_digit with hds
      clear_value ds
      rw [enum_weight_sum ds 9 10 (by omega), enum_weight_sum ds 10 11 (by omega)]
      rw [modCheck_eq, modCheck_eq]
      exact check_bool _ _ _ _
  · simp [hl]

/-- C9.  Each formatting function returns the input unchanged whenever
the extracted digit count differs from its expected length (11, 14, 8),
and otherwise returns the digits in the fixed separator layout
`XXX.XXX.XXX-XX`, `XX.XXX.XXX/XXXX-XX`, `XXXXX-XXX`. -/
theorem format_functions_characterized (s : String) :
    ((extract_digits s).length ≠ 11 → format_cpf s = s)
    ∧ ((extract_digits s).length = 11 →
        format_cpf s =
          String.mk ((extract_digits s).take 3) ++ "."
            ++ String.mk (((extract_digits s).drop 3).take 3) ++ "."
            ++ String.mk (((extract_digits s).drop 6).take 3) ++ "-"
            ++ String.mk (((extract_digits s).drop 9).take 2))
    ∧ ((extract_digits s).length ≠ 14 → format_cnpj s = s)
    ∧ ((extract_digits s).length = 14 →
        format_cnpj s =
          String.mk ((extract_digits s).take 2) ++ "."
            ++ String.mk (((extract_digits s).drop 2).take 3) ++ "."
            ++ String.mk (((extract_digits s).drop 5).take 3) ++ "/"
            ++ String.mk (((extract_digits s).drop 8).take 4) ++ "-"
            ++ String.mk (((extract_digits s).drop 12).take 2))
    ∧ ((extract_digits s).length ≠ 8 → format_cep s = s)
    ∧ ((extract_digits s).length = 8 →
        format_cep s =
          String.mk ((extract_digits s).take 5) ++ "-"
            ++ String.mk (((extract_digits s).drop 5).take 3)) := by
  refine ⟨fun h => ?_, fun h => ?_, fun h => ?_, fun h => ?_, fun h => ?_, fun h => ?_⟩
    <;> simp [format_cpf, format_cnpj, format_cep, h]

/-- C9 (witness).  Concrete instances of both branches: an 11-digit CPF
string is reformatted into the canonical layout, and wrong-length inputs
pass through unchanged. -/
theorem format_functions_characterized_witness :
    format_cpf "12" = "12"
    ∧ format_cpf "111.444.777-35"
        = String.mk ((extract_digits "111.444.777-35").take 3) ++ "."
            ++ String.mk (((extract_digits "111.444.777-35").drop 3).take 3) ++ "."
            ++ String.mk (((extract_digits "111.444.777-35").drop 6).take 3) ++ "-"
            ++ String.mk (((extract_digits "111.444.777-35").drop 9).take 2)
    ∧ format_cnpj "123" = "123"
    ∧ format_cep "97" = "97" :=
  ⟨(format_functions_characterized "12").1 (by decide),
   (format_functions_characterized "111.444.777-35").2.1 (by decide),
   (format_functions_characterized "123").2.2.1 (by decide),
   (format_functions_characterized "97").2.2.2.2.1 (by decide)⟩

/-- Bit 15 of the register read through `&&& 0x8000` agrees with the
arithmetic reading `r / 2 ^ 15 % 2 = 1`. -/
theorem and_32768 (r : Nat) : (r &&& 32768 ≠ 0) ↔ r / 32768 % 2 = 1 := by
  have h15 : (32768 : Nat) = 2 ^ 15 := by norm_num
  rw [h15, Nat.and_two_pow]
  rcases hb : r.testBit 15 with _ | _
  · rw [Nat.testBit_to_div_mod] at hb
    simp only [decide_eq_false_iff_not] at hb
    simp only [Bool.toNat_false, Nat.zero_mul, ne_eq, not_true_eq_false, false_iff]
    omega
  · rw [Nat.testBit_to_div_mod] at hb
    simp only [decide_eq_true_eq] at hb
    simp [hb]

/-- The source's bitwise shift step equals the spec's arithmetic shift
step on every register value. -/
theorem shiftStep_eq : crcShiftStep = crcSpecShift := by
  funext r
  unfold crcShiftStep crcSpecShift
  rw [Nat.shiftLeft_eq]
  norm_num
  by_cases h : r / 32768 % 2 = 1
  · have hne : r &&& 32768 ≠ 0 := (and_32768 r).2 h
    rw [if_neg hne, if_pos h]
  · have heq : r &&& 32768 = 0 := by
      by_contra hc
      exact h ((and_32768 r).1 hc)
    rw [if_pos heq, if_neg h]

/-- Folding a constant-step function over `List.range n` iterates it. -/
theorem foldl_range_const (f : Nat → Nat) (n : Nat) (x : Nat) :
    (List.range n).foldl (fun a _ => f a) x = f^[n] x := by
  induction n generalizing x with
  | zero => rfl
  | succ m ih =>
    rw [List.range_succ, List.foldl_append, Function.iterate_succ_apply']
    simp [ih]

/-- The source's per-byte CRC step equals the spec's description. -/
theorem byteStep_eq : crcByteStep = crcSpecByte := by
  funext c b
  unfold crcByteStep crcSpecByte
  rw [shiftStep_eq, Nat.shiftLeft_eq]
  norm_num
  rw [foldl_range_const]
  rfl

set_option maxRecDepth 4000 in
/-- C7.  `calculate_crc16` implements CRC16-CCITT exactly as the spec
describes it (initial register `0xFFFF`, polynomial `0x1021`, byte XORed
into the high byte, eight conditional shift steps), and it reproduces
the externally known CRC16/CCITT-FALSE vector `"123456789" ↦ 0x29B1`. -/
theorem crc16_impl_correct :
    calculate_crc16 (strBytes "123456789") = 0x29B1
    ∧ ∀ data : List Nat, calculate_crc16 data = crc16_ccitt_spec data := by
  refine ⟨by decide, fun data => ?_⟩
  unfold calculate_crc16 crc16_ccitt_spec
  rw [byteStep_eq]

/-- Every uppercase hex digit byte of a nibble value lies in the hex
alphabet. -/
theorem hexDigitByte_mem (d : Nat) (h : d < 16) :
    hexDigitByte d ∈ strBytes "0123456789ABCDEF" := by
  interval_cases d <;> decide

/-- All four bytes of a `{:04X}` rendering are uppercase hex digits. -/
theorem hex4_subset (m : Nat) : ∀ b ∈ hex4 m, b ∈ strBytes "0123456789ABCDEF" := by
  intro b hb
  simp only [hex4, List.mem_cons, List.not_mem_nil, or_false] at hb
  rcases hb with h | h | h | h <;> subst h <;>
    exact hexDigitByte_mem _ (Nat.mod_lt _ (by norm_num))

set_option maxHeartbeats 1000000 in
/-- C2.  For every merchant name, PIX key, amount and transaction id,
the generated payload is a base ending in the literal `6304` followed by
exactly the four uppercase hex digits of `calculate_crc16` re-run over
that base: re-computing the CRC over the prefix up to and including
`6304` reproduces the trailing four digits. -/
theorem qr_payload_selfconsistent (pix_key merchant_name : List Nat)
    (amount_cents : Nat) (e2e_id : Option (List Nat)) (fresh_txid : List Nat) :
    ∃ base : List Nat,
      generate_qr_payload pix_key merchant_name amount_cents e2e_id fresh_txid
          = base ++ hex4 (calculate_crc16 base)
      ∧ (∃ l : List Nat, base = l ++ strBytes "6304")
      ∧ (hex4 (calculate_crc16 base)).length = 4
      ∧ ∀ b ∈ hex4 (calculate_crc16 base), b ∈ strBytes "0123456789ABCDEF" := by
  have h1 : generate_qr_payload pix_key merchant_name amount_cents e2e_id fresh_txid
      = qr_payload_base pix_key merchant_name amount_cents (e2e_id.getD fresh_txid)
          ++ hex4 (calculate_crc16
              (qr_payload_base pix_key merchant_name amount_cents (e2e_id.getD fresh_txid))) := by
    simp only [generate_qr_payload]
  have h2 : ∃ l, qr_payload_base pix_key merchant_name amount_cents (e2e_id.getD fresh_txid)
      = l ++ strBytes "6304" := by
    simp only [qr_payload_base]
    exact ⟨_, rfl⟩
  exact ⟨_, h1, h2, rfl, hex4_subset _⟩

/-- Each branch of the zone computation returns the corresponding
mantissa at scale 2. -/
theorem calc_zone_bridge (o d : String) :
    calculate_zone_multiplier o d = Decimal_new (zone_multiplier_mantissa o d) 2 := by
  simp only [calculate_zone_multiplier, zone_multiplier_mantissa]
  split_ifs <;> rfl

/-- Each branch of the amended zone rule returns the corresponding
mantissa at scale 2. -/
theorem amended_zone_bridge (o d : String) :
    amended_zone_multiplier o d = Decimal_new (amended_zone_mantissa o d) 2 := by
  simp only [amended_zone_multiplier, amended_zone_mantissa]
  by_cases h : to_upper o = to_upper d
  · simp [h]
  · simp only [if_neg h]
    rcases region_of (to_upper o) with _ | r1 <;> rcases region_of (to_upper d) with _ | r2 <;>
        dsimp only
    all_goals first | rfl | (split_ifs <;> rfl)

/-- Over all ordered pairs of the 27 state codes, the source rule and
the amended rule pick the same mantissa. -/
theorem zone_mantissa_agree :
    ∀ o ∈ brazil_states, ∀ d ∈ brazil_states,
      zone_multiplier_mantissa o d = amended_zone_mantissa o d := by decide

/-- C3 (counterexample).  For the south→north pair PR→AM the code
returns 1.80, but the claim's rule list (which reserves 1.80 for
southeast↔north only) assigns 1.60, so the claim as stated is false. -/
theorem zone_claim_counterexample :
    calculate_zone_multiplier "PR" "AM" = Decimal_new 180 2
    ∧ claim_zone_multiplier "PR" "AM" = Decimal_new 160 2
    ∧ Decimal_new 180 2 ≠ Decimal_new 160 2 :=
  ⟨rfl, rfl, by norm_num [Decimal_new]⟩

/-- C3 (amended).  On the five-region partition of the 27 states the
code computes: 1.00 same state; 1.20 same region; 1.50 exactly for
southeast→south, southeast→center and south→southeast; 1.80 exactly for
southeast↔north and south↔north in both orders; 1.60 otherwise — and the
evaluation is not symmetric (GO→SP gives 1.60 while SP→GO gives 1.50). -/
theorem zone_multiplier_amended :
    (∀ o ∈ brazil_states, ∀ d ∈ brazil_states,
      calculate_zone_multiplier o d = amended_zone_multiplier o d)
    ∧ calculate_zone_multiplier "GO" "SP" ≠ calculate_zone_multiplier "SP" "GO" := by
  constructor
  · intro o ho d hd
    rw [calc_zone_bridge, amended_zone_bridge, zone_mantissa_agree o ho d hd]
  · have h1 : calculate_zone_multiplier "GO" "SP" = Decimal_new 160 2 := rfl
    have h2 : calculate_zone_multiplier "SP" "GO" = Decimal_new 150 2 := rfl
    rw [h1, h2]
    norm_num [Decimal_new]

/-- C3 (witness).  A concrete in-table instance of the amended rule. -/
theorem zone_multiplier_amended_witness :
    "SP" ∈ brazil_states ∧ "AM" ∈ brazil_states
    ∧ calculate_zone_multiplier "SP" "AM" = amended_zone_multiplier "SP" "AM" :=
  ⟨by decide, by decide, zone_multiplier_amended.1 "SP" (by decide) "AM" (by decide)⟩

/-- C4.  At gross `1000.00`, state SP, goods: because every rate is
stored as `Decimal::new(r, 2)` (already `r` percent as a fraction) and
then divided by 100 again, the code produces ICMS `1.80`, PIS `0.165`,
COFINS `0.76` and total `2.725` — not the `180.00 + 16.50 + 76.00 =
272.50` that the claim (and the code's own `18%`, `1.65%`, `7.60%`
comments) require, and the net amount is not `727.50`. -/
theorem tax_sp_goods_code_value :
    calculate_icms (Decimal_new 100000 2) "SP" = Decimal_new 18 1
    ∧ calculate_pis (Decimal_new 100000 2) = Decimal_new 165 3
    ∧ calculate_cofins (Decimal_new 100000 2) = Decimal_new 76 2
    ∧ calculate_total_tax (Decimal_new 100000 2) "SP" false = Decimal_new 2725 3
    ∧ Decimal_new 2725 3 ≠ Decimal_new 27250 2
    ∧ Decimal_new 100000 2 - Decimal_new 2725 3 ≠ Decimal_new 72750 2 := by
  have hicms : calculate_icms (Decimal_new 100000 2) "SP"
      = Decimal_new 100000 2 * Decimal_new 18 2 / Decimal_new 100 0 := rfl
  have h1 : calculate_icms (Decimal_new 100000 2) "SP" = Decimal_new 18 1 := by
    rw [hicms]; norm_num [Decimal_new]
  have h2 : calculate_pis (Decimal_new 100000 2) = Decimal_new 165 3 := by
    unfold calculate_pis; norm_num [Decimal_new]
  have h3 : calculate_cofins (Decimal_new 100000 2) = Decimal_new 76 2 := by
    unfold calculate_cofins; norm_num [Decimal_new]
  have h4 : calculate_total_tax (Decimal_new 100000 2) "SP" false = Decimal_new 2725 3 := by
    unfold calculate_total_tax
    rw [if_neg (by simp), h1, h2, h3]
    norm_num [Decimal_new]
  exact ⟨h1, h2, h3, h4, by norm_num [Decimal_new], by norm_num [Decimal_new]⟩

/-- C5.  `can_transition_to` returns true exactly on self-transitions
and on the ordered pairs of the enumerated transition table, and false
on every other ordered pair of statuses. -/
theorem can_transition_to_table :
    ∀ s t : Status, can_transition_to s t = true ↔ s = t ∨ (s, t) ∈ allowed_transitions := by
  decide

/-- C10.  Each lifecycle mutator returns the pair of
`InvalidStateTransition {from, to}` and the entirely unchanged entity
exactly when its precondition fails: `mark_processing` unless `Pending`,
`mark_completed` unless `Processing` or `Pending`, `mark_failed` exactly
on `Completed` or `Refunded`, and `mark_refunded` exactly when not
`Completed`. -/
theorem payment_mutators_atomic (e : PaymentEntity) (reason : String) (now : Int) :
    (mark_processing e now = (.error (.InvalidStateTransition e.status .Processing), e)
        ↔ e.status ≠ .Pending)
    ∧ (mark_completed e now = (.error (.InvalidStateTransition e.status .Completed), e)
        ↔ (e.status ≠ .Processing ∧ e.status ≠ .Pending))
    ∧ (mark_failed e reason now = (.error (.InvalidStateTransition e.status .Failed), e)
        ↔ (e.status = .Completed ∨ e.status = .Refunded))
    ∧ (mark_refunded e now = (.error (.InvalidStateTransition e.status .Refunded), e)
        ↔ e.status ≠ .Completed) := by
  obtain ⟨i, a, status, ca, ua, compA, fa, fr⟩ := e
  cases status <;>
    simp [mark_processing, mark_completed, mark_failed, mark_refunded, can_refund]

/-- C10 (witness).  Refunding a pending payment and failing a completed
payment both return the invalid-transition error and leave the entity
untouched. -/
theorem payment_mutators_atomic_witness :
    mark_refunded ⟨1, 5, .Pending, 0, 0, none, none, none⟩ 7
      = (.error (.InvalidStateTransition .Pending .Refunded),
         (⟨1, 5, .Pending, 0, 0, none, none, none⟩ : PaymentEntity))
    ∧ mark_failed ⟨1, 5, .Completed, 0, 0, none, none, none⟩ "declined" 7
      = (.error (.InvalidStateTransition .Completed .Failed),
         (⟨1, 5, .Completed, 0, 0, none, none, none⟩ : PaymentEntity)) :=
  ⟨(payment_mutators_atomic ⟨1, 5, .Pending, 0, 0, none, none, none⟩ "declined" 7).2.2.2.mpr
      (by decide),
   (payment_mutators_atomic ⟨1, 5, .Completed, 0, 0, none, none, none⟩ "declined" 7).2.2.1.mpr
      (by decide)⟩

end Pleme
